import Mathlib

/-!
Shallow embedding of `app.py` (streamlit-llm-app): a single-page form that
forwards a question, an expert-persona tag and a sampling temperature to a
chat-completion endpoint.

Modelling decisions:
* The two configuration sources (`st.secrets` and `os.environ`) are the two
  fields of `Config`; `none` means the key is absent, `some s` means present
  with value `s` (possibly the empty string).
* Python truthiness of an optional string (`if not key`) is `optFalsy`.
* Observable effects (secret-store lookup, environment lookup, remote call)
  are recorded in an event trace, so "never consults X" / "no network call"
  claims become statements about the trace.
* The remote model is an oracle `remote : Request → RemoteOutcome`; it either
  returns a reply object or raises an exception.  A Python exception is
  modelled as `PyExc`, carrying its class name, its message (`str(e)`), and
  whether its class is `RuntimeError` (or a subclass), which is what the UI
  handler's `except RuntimeError` clause dispatches on.
* A reply object (`llm.invoke` result) is modelled by `Reply`: an optional
  `content` attribute (`none` = `hasattr(result, "content")` is false) and
  the string conversion `str(result)`.
* The temperature is a Python float on which the program performs no
  arithmetic or comparison; it is embedded as `ℚ`, which is faithful because
  the value is only stored and passed through.
-/

/-- Python truthiness test for an optional string: `None` and `""` are falsy. -/
def optFalsy : Option String → Bool
  | none => true
  | some s => s = ""

/-- The two configuration sources for `OPENAI_API_KEY`:
`st.secrets` and the process environment. -/
structure Config where
  secrets : Option String
  env : Option String
deriving DecidableEq, Repr

/-- Role of a chat message (`SystemMessage` / `HumanMessage`). -/
inductive Role where
  | system
  | user
deriving DecidableEq, Repr

/-- One `{role, content}` chat message. -/
structure Message where
  role : Role
  content : String
deriving DecidableEq, Repr

/-- The data handed to the remote chat-completion call: the credential and
model name given to `ChatOpenAI`, the temperature, and the message list
given to `llm.invoke`. -/
structure Request where
  api_key : String
  model : String
  temperature : ℚ
  messages : List Message
deriving DecidableEq, Repr

/-- Observable effects of one invocation. -/
inductive Event where
  | secretsGet (key : String)
  | envGet (key : String)
  | remoteCall (req : Request)
deriving DecidableEq, Repr

/-- A Python exception: class name, message (`str(e)`), and whether the class
is `RuntimeError` or a subclass of it (what `except RuntimeError` catches). -/
structure PyExc where
  className : String
  msg : String
  is_runtime_error : Bool
deriving DecidableEq, Repr

/-- The object returned by `llm.invoke`: `content?` is the `content`
attribute when the object has one (`hasattr`), `str` is `str(result)`. -/
structure Reply where
  content? : Option String
  str : String
deriving DecidableEq, Repr

/-- Outcome of the remote call: a reply object, or a raised exception. -/
inductive RemoteOutcome where
  | ok (r : Reply)
  | raise (e : PyExc)
deriving DecidableEq, Repr

/-- The requests among a list of events (network calls issued). -/
def remoteRequests : List Event → List Request
  | [] => []
  | Event.remoteCall r :: rest => r :: remoteRequests rest
  | _ :: rest => remoteRequests rest

/-- `get_api_key` from `app.py`: reads `st.secrets` first; if that value is
falsy (absent or empty) it falls back to `os.getenv`.  Returns the value
together with the trace of lookups performed. -/
def get_api_key (cfg : Config) : Option String × List Event :=
  let key := cfg.secrets
  if optFalsy key then
    (cfg.env, [Event.secretsGet "OPENAI_API_KEY", Event.envGet "OPENAI_API_KEY"])
  else
    (key, [Event.secretsGet "OPENAI_API_KEY"])

/-- The fixed cooking-expert system instruction (`SYSTEM_PROMPTS["A"]`). -/
def PROMPT_A : String :=
  "あなたは料理の専門家です。ユーザーの条件に具体的で再現性の高いレシピと調理のアドバイスをしてください。"

/-- The fixed finance-expert system instruction (`SYSTEM_PROMPTS["B"]`). -/
def PROMPT_B : String :=
  "あなたは経済/投資の専門家です。ユーザーの質問に対して具体的で実務的なアドバイスをしてください。"

/-- `SYSTEM_PROMPTS` as a keyed lookup: `some` on the two members, `none`
otherwise (dict membership + indexing). -/
def SYSTEM_PROMPTS (c : String) : Option String :=
  if c = "A" then some PROMPT_A
  else if c = "B" then some PROMPT_B
  else none

/-- Message of the `ValueError` raised on an unrecognized persona tag. -/
def VALUE_ERROR_MSG : String :=
  "expert_choice は 'A' または 'B' を指定してください。"

/-- Message of the `RuntimeError` raised when no credential resolves
(Python adjacent string literals concatenated). -/
def MISSING_KEY_MSG : String :=
  "OPENAI_API_KEY が見つかりません。ローカルでは .env に OPENAI_API_KEY=... を記載、Streamlit Cloud では Secrets に設定してください。"

/-- Normalization of the remote outcome performed by the tail of
`ask_expert`: `result.content if hasattr(result, "content") else str(result)`,
with a raised exception propagating. -/
def interpretOutcome : RemoteOutcome → Except PyExc String
  | RemoteOutcome.ok r =>
      match r.content? with
      | some c => Except.ok c
      | none => Except.ok r.str
  | RemoteOutcome.raise e => Except.error e

/-- `ask_expert` from `app.py`, with the configuration state and the remote
model passed explicitly, returning the result (or raised exception) together
with the trace of effects. -/
def ask_expert (cfg : Config) (remote : Request → RemoteOutcome)
    (input_text expert_choice : String) (temperature : ℚ) :
    Except PyExc String × List Event :=
  match SYSTEM_PROMPTS expert_choice with
  | none => (Except.error ⟨"ValueError", VALUE_ERROR_MSG, false⟩, [])
  | some prompt =>
    let res := get_api_key cfg
    if optFalsy res.1 then
      (Except.error ⟨"RuntimeError", MISSING_KEY_MSG, true⟩, res.2)
    else
      let req : Request :=
        ⟨res.1.getD "", "gpt-4o-mini", temperature,
         [⟨Role.system, prompt⟩, ⟨Role.user, input_text⟩]⟩
      (interpretOutcome (remote req), res.2 ++ [Event.remoteCall req])

/-- What the submission handler renders. -/
inductive Display where
  | warning (msg : String)
  | successPanel (answer : String)
  | errorRemediation (errMsg : String) (infoMsg : String)
  | errorGeneric (msg : String)
deriving DecidableEq, Repr

/-- Python's `str.isspace` on the ASCII whitespace characters (the Unicode
space characters beyond ASCII are not modelled; no claim involves them). -/
def pyIsSpace (c : Char) : Bool :=
  c = ' ' || c = '\t' || c = '\n' || c = '\r' || c = '\x0b' || c = '\x0c'

/-- Python's `str.strip()`: drop leading and trailing whitespace. -/
def pyStrip (s : String) : String :=
  String.mk (((s.data.dropWhile pyIsSpace).reverse.dropWhile pyIsSpace).reverse)

/-- The `st.warning` text for empty input. -/
def WARNING_MSG : String := "質問内容を入力してください。"

/-- The `st.info` remediation text shown by the `except RuntimeError` branch. -/
def INFO_MSG : String :=
  "ローカル開発: プロジェクト直下に `.env` を作成して `OPENAI_API_KEY=...` を入れてください。\nStreamlit Cloud: App settings → Secrets に `OPENAI_API_KEY` を設定してください。"

/-- The generic error panel text: `f"エラーが発生しました: \x7btype(e).__name__\x7d: \x7be\x7d"`. -/
def genericErrorText (e : PyExc) : String :=
  "エラーが発生しました: " ++ e.className ++ ": " ++ e.msg

/-- The `if submitted:` block of `app.py`: the whitespace guard, the call to
`ask_expert`, and the two `except` clauses (`RuntimeError` first, then
`Exception`).  Total by construction: every outcome is rendered as a
`Display`, never a crash. -/
def handle_submission (cfg : Config) (remote : Request → RemoteOutcome)
    (user_input expert_choice : String) (temperature : ℚ) :
    Display × List Event :=
  if pyStrip user_input = "" then
    (Display.warning WARNING_MSG, [])
  else
    match ask_expert cfg remote user_input expert_choice temperature with
    | (Except.ok answer, evs) => (Display.successPanel answer, evs)
    | (Except.error e, evs) =>
      if e.is_runtime_error then
        (Display.errorRemediation e.msg INFO_MSG, evs)
      else
        (Display.errorGeneric (genericErrorText e), evs)

/-! ### Helper objects for concrete instantiations -/

/-- A remote model that answers with a reply carrying a `content` field. -/
def okRemote : Request → RemoteOutcome :=
  fun _ => RemoteOutcome.ok ⟨some "answer", "AIMessage(answer)"⟩

/-- A remote model whose call raises a `RuntimeError` (e.g. an HTTP-client
misuse error from inside the network stack). -/
def runtimeRaisingRemote : Request → RemoteOutcome :=
  fun _ => RemoteOutcome.raise ⟨"RuntimeError", "boom", true⟩

/-- A remote model returning the spec's example reply. -/
def recipeRemote : Request → RemoteOutcome :=
  fun _ => RemoteOutcome.ok ⟨some "Tteriyaki chicken recipe...", "AIMessage"⟩

/-- A remote model returning a reply with no `content` attribute whose
string conversion is `"<reply>"`. -/
def opaqueRemote : Request → RemoteOutcome :=
  fun _ => RemoteOutcome.ok ⟨none, "<reply>"⟩

/-- A remote model returning a reply with no `content` attribute whose
string conversion is the empty string. -/
def emptyStrRemote : Request → RemoteOutcome :=
  fun _ => RemoteOutcome.ok ⟨none, ""⟩

/-! ### General lemmas about the embedding -/

/-- `remoteRequests` distributes over concatenation of traces. -/
theorem remoteRequests_append (a b : List Event) :
    remoteRequests (a ++ b) = remoteRequests a ++ remoteRequests b := by
  induction a with
  | nil => rfl
  | cons e rest ih => cases e <;> simp [remoteRequests, ih]

/-- Credential resolution issues no network call. -/
theorem remoteRequests_get_api_key (cfg : Config) :
    remoteRequests (get_api_key cfg).2 = [] := by
  unfold get_api_key
  by_cases h : optFalsy cfg.secrets = true <;> simp [h, remoteRequests]

/-- Characterization of a run of `ask_expert` that reaches the remote call:
valid persona and a truthy credential yield exactly one remote call, with
the request built from the resolved key, the fixed model name, the given
temperature and the two messages, and the result is the interpretation of
the remote outcome. -/
theorem ask_expert_run (cfg : Config) (remote : Request → RemoteOutcome)
    (input choice : String) (temp : ℚ) (p k : String)
    (hp : SYSTEM_PROMPTS choice = some p)
    (hk : (get_api_key cfg).1 = some k) (hne : k ≠ "") :
    ask_expert cfg remote input choice temp =
      (interpretOutcome
        (remote ⟨k, "gpt-4o-mini", temp, [⟨Role.system, p⟩, ⟨Role.user, input⟩]⟩),
       (get_api_key cfg).2 ++
        [Event.remoteCall ⟨k, "gpt-4o-mini", temp,
          [⟨Role.system, p⟩, ⟨Role.user, input⟩]⟩]) := by
  have hfal : optFalsy (get_api_key cfg).1 = false := by
    rw [hk]; simp [optFalsy, hne]
  unfold ask_expert
  rw [hp]
  simp only [hk, hfal, Bool.false_eq_true, if_false, Option.getD_some]
  simp [optFalsy, hne]

/-! ### C2: credential resolution order -/

/-- C2 (counterexample): with the secret store empty and the environment
variable set to the empty string, `get_api_key` returns `some ""` — a
present but empty value, not the absent/None result the claim requires when
neither source has a non-empty value. -/
theorem c2_empty_env_counterexample :
    (get_api_key ⟨none, some ""⟩).1 = some "" ∧
    (some "" : Option String) ≠ none := by
  constructor
  · rfl
  · intro h; cases h

/-- C2 (amended): `get_api_key` consults the secret store first; if the
secret store holds a non-empty value it returns it without consulting the
environment variable (the lookup trace contains no `envGet`); otherwise it
consults and returns the environment variable's value verbatim — the first
non-empty value when one exists, but possibly `some ""` (not `none`) when
the environment variable is set to the empty string. -/
theorem c2_resolution_order (cfg : Config) :
    (∀ s, cfg.secrets = some s → s ≠ "" →
      get_api_key cfg = (some s, [Event.secretsGet "OPENAI_API_KEY"])) ∧
    (optFalsy cfg.secrets = true →
      get_api_key cfg =
        (cfg.env, [Event.secretsGet "OPENAI_API_KEY", Event.envGet "OPENAI_API_KEY"])) := by
  constructor
  · intro s hs hne
    unfold get_api_key
    rw [hs]
    simp [optFalsy, hne]
  · intro h
    unfold get_api_key
    simp [h]

/-- C2 (witness): both branches of `c2_resolution_order` at concrete
configurations: a non-empty secret short-circuits (one lookup only, the
environment value is ignored), and a falsy secret falls through to the
environment value. -/
theorem c2_resolution_order_witness :
    get_api_key ⟨some "sk", some "ignored"⟩ =
      (some "sk", [Event.secretsGet "OPENAI_API_KEY"]) ∧
    get_api_key ⟨none, some "envkey"⟩ =
      (some "envkey",
       [Event.secretsGet "OPENAI_API_KEY", Event.envGet "OPENAI_API_KEY"]) :=
  ⟨(c2_resolution_order ⟨some "sk", some "ignored"⟩).1 "sk" rfl (by decide),
   (c2_resolution_order ⟨none, some "envkey"⟩).2 (by decide)⟩

/-! ### C3: missing credential -/

set_option maxRecDepth 8192 in
/-- C3: for every input text, persona in the enumeration, and temperature,
if neither source holds a non-empty value for `OPENAI_API_KEY`, `ask_expert`
fails with the `RuntimeError` (MissingConfiguration) carrying the message
that names both configuration sources (`.env` and `Secrets`), and the trace
shows both lookups and no remote call. -/
theorem c3_missing_key_fails (input choice : String) (temp : ℚ)
    (cfg : Config) (remote : Request → RemoteOutcome)
    (hchoice : choice = "A" ∨ choice = "B")
    (hs : optFalsy cfg.secrets = true) (he : optFalsy cfg.env = true) :
    ask_expert cfg remote input choice temp =
      (Except.error ⟨"RuntimeError", MISSING_KEY_MSG, true⟩,
       [Event.secretsGet "OPENAI_API_KEY", Event.envGet "OPENAI_API_KEY"]) ∧
    remoteRequests (ask_expert cfg remote input choice temp).2 = [] ∧
    List.IsInfix ".env".toList MISSING_KEY_MSG.toList ∧
    List.IsInfix "Secrets".toList MISSING_KEY_MSG.toList := by
  have hget : get_api_key cfg =
      (cfg.env, [Event.secretsGet "OPENAI_API_KEY", Event.envGet "OPENAI_API_KEY"]) := by
    unfold get_api_key
    simp [hs]
  have heq : ask_expert cfg remote input choice temp =
      (Except.error ⟨"RuntimeError", MISSING_KEY_MSG, true⟩,
       [Event.secretsGet "OPENAI_API_KEY", Event.envGet "OPENAI_API_KEY"]) := by
    rcases hchoice with h | h <;> subst h <;>
      · unfold ask_expert
        simp [SYSTEM_PROMPTS, hget, he]
  refine ⟨heq, ?_, by decide, by decide⟩
  rw [heq]
  rfl

/-- C3 (witness): concrete instantiation with both sources absent. -/
theorem c3_missing_key_fails_witness :
    ask_expert ⟨none, none⟩ okRemote "hello" "A" 0 =
      (Except.error ⟨"RuntimeError", MISSING_KEY_MSG, true⟩,
       [Event.secretsGet "OPENAI_API_KEY", Event.envGet "OPENAI_API_KEY"]) ∧
    remoteRequests (ask_expert ⟨none, none⟩ okRemote "hello" "A" 0).2 = [] ∧
    List.IsInfix ".env".toList MISSING_KEY_MSG.toList ∧
    List.IsInfix "Secrets".toList MISSING_KEY_MSG.toList :=
  c3_missing_key_fails "hello" "A" 0 ⟨none, none⟩ okRemote (Or.inl rfl)
    (by decide) (by decide)

/-! ### C4: invalid persona tag -/

/-- C4: for every persona tag outside the enumeration, `ask_expert` fails
with the `ValueError` (InvalidArgument) whose message names the two valid
tags, and its trace is empty: no credential lookup (and no remote call) is
attempted. -/
theorem c4_invalid_persona_fails (input choice : String) (temp : ℚ)
    (cfg : Config) (remote : Request → RemoteOutcome)
    (hA : choice ≠ "A") (hB : choice ≠ "B") :
    ask_expert cfg remote input choice temp =
      (Except.error ⟨"ValueError", VALUE_ERROR_MSG, false⟩, []) ∧
    List.IsInfix "'A'".toList VALUE_ERROR_MSG.toList ∧
    List.IsInfix "'B'".toList VALUE_ERROR_MSG.toList := by
  have hp : SYSTEM_PROMPTS choice = none := by
    unfold SYSTEM_PROMPTS
    simp [hA, hB]
  refine ⟨?_, by decide, by decide⟩
  unfold ask_expert
  rw [hp]

/-- C4 (witness): concrete instantiation at the unrecognized tag `"C"`. -/
theorem c4_invalid_persona_fails_witness :
    ask_expert ⟨some "sk", none⟩ okRemote "hello" "C" 0 =
      (Except.error ⟨"ValueError", VALUE_ERROR_MSG, false⟩, []) ∧
    List.IsInfix "'A'".toList VALUE_ERROR_MSG.toList ∧
    List.IsInfix "'B'".toList VALUE_ERROR_MSG.toList :=
  c4_invalid_persona_fails "hello" "C" 0 ⟨some "sk", none⟩ okRemote
    (by decide) (by decide)

/-! ### C5: message sequence sent to the model -/

/-- C5: whenever a credential resolves and the persona is recognized, the
trace contains exactly one remote call, whose message list is exactly the
system-role entry with the persona's fixed instruction followed by the
user-role entry with the input text verbatim; and the fixed instruction for
`"A"` is the cooking-expert string, for `"B"` the finance-expert string. -/
theorem c5_message_sequence (cfg : Config) (remote : Request → RemoteOutcome)
    (input choice : String) (temp : ℚ) (p k : String)
    (hp : SYSTEM_PROMPTS choice = some p)
    (hk : (get_api_key cfg).1 = some k) (hne : k ≠ "") :
    remoteRequests (ask_expert cfg remote input choice temp).2 =
      [⟨k, "gpt-4o-mini", temp, [⟨Role.system, p⟩, ⟨Role.user, input⟩]⟩] ∧
    SYSTEM_PROMPTS "A" = some PROMPT_A ∧
    SYSTEM_PROMPTS "B" = some PROMPT_B := by
  refine ⟨?_, rfl, rfl⟩
  rw [ask_expert_run cfg remote input choice temp p k hp hk hne]
  rw [remoteRequests_append, remoteRequests_get_api_key]
  rfl

/-- C5 (witness): concrete instantiation: persona `"A"`, secret-store key
`"sk"`, input `"hi"`, temperature `1`. -/
theorem c5_message_sequence_witness :
    remoteRequests (ask_expert ⟨some "sk", none⟩ okRemote "hi" "A" 1).2 =
      [⟨"sk", "gpt-4o-mini", 1, [⟨Role.system, PROMPT_A⟩, ⟨Role.user, "hi"⟩]⟩] ∧
    SYSTEM_PROMPTS "A" = some PROMPT_A ∧
    SYSTEM_PROMPTS "B" = some PROMPT_B :=
  c5_message_sequence ⟨some "sk", none⟩ okRemote "hi" "A" 1 PROMPT_A "sk"
    (by decide) (by decide) (by decide)

/-! ### C6: response normalization -/

/-- C6 (counterexample): a reply object with no `content` attribute whose
string conversion is empty makes `ask_expert` return the empty string, so
the fallback string is not always non-empty as the claim states. -/
theorem c6_empty_fallback_counterexample :
    (ask_expert ⟨some "sk", none⟩ emptyStrRemote "hi" "A" 1).1 =
      Except.ok "" := by
  rfl

/-- C6 (amended): if the reply object exposes a `content` field, `ask_expert`
returns exactly that field's value; if it has no `content` field, it returns
exactly the string conversion of the whole reply object — which is non-empty
exactly when that conversion is non-empty (the code adds no guarantee of its
own). -/
theorem c6_response_extraction (cfg : Config)
    (remote : Request → RemoteOutcome) (input choice : String) (temp : ℚ)
    (p k : String) (r : Reply)
    (hp : SYSTEM_PROMPTS choice = some p)
    (hk : (get_api_key cfg).1 = some k) (hne : k ≠ "")
    (hr : remote ⟨k, "gpt-4o-mini", temp,
            [⟨Role.system, p⟩, ⟨Role.user, input⟩]⟩ = RemoteOutcome.ok r) :
    (∀ c, r.content? = some c →
      (ask_expert cfg remote input choice temp).1 = Except.ok c) ∧
    (r.content? = none →
      (ask_expert cfg remote input choice temp).1 = Except.ok r.str ∧
      ((ask_expert cfg remote input choice temp).1 ≠ Except.ok "" ↔ r.str ≠ "")) := by
  have hrun := ask_expert_run cfg remote input choice temp p k hp hk hne
  rw [hr] at hrun
  constructor
  · intro c hc
    rw [hrun]
    simp [interpretOutcome, hc]
  · intro hc
    rw [hrun]
    simp [interpretOutcome, hc]

/-- C6 (witness): both branches at concrete replies: the spec's example
`content` value is returned verbatim, and a content-less reply with string
conversion `"<reply>"` yields exactly that non-empty string. -/
theorem c6_response_extraction_witness :
    (ask_expert ⟨some "sk", none⟩ recipeRemote "q" "A" 1).1 =
      Except.ok "Tteriyaki chicken recipe..." ∧
    (ask_expert ⟨some "sk", none⟩ opaqueRemote "q" "A" 1).1 =
      Except.ok "<reply>" :=
  ⟨(c6_response_extraction ⟨some "sk", none⟩ recipeRemote "q" "A" 1 PROMPT_A
      "sk" ⟨some "Tteriyaki chicken recipe...", "AIMessage"⟩
      (by decide) (by decide) (by decide) rfl).1
      "Tteriyaki chicken recipe..." rfl,
   ((c6_response_extraction ⟨some "sk", none⟩ opaqueRemote "q" "A" 1 PROMPT_A
      "sk" ⟨none, "<reply>"⟩
      (by decide) (by decide) (by decide) rfl).2 rfl).1⟩

/-! ### C7: blank input is a UI no-op -/

/-- C7: whenever the input text strips to the empty string, the handler
renders the warning and the trace is empty — no credential lookup and no
network call, so nothing external is touched. -/
theorem c7_blank_input_warns (cfg : Config) (remote : Request → RemoteOutcome)
    (input choice : String) (temp : ℚ) (hblank : pyStrip input = "") :
    handle_submission cfg remote input choice temp =
      (Display.warning WARNING_MSG, []) ∧
    remoteRequests (handle_submission cfg remote input choice temp).2 = [] := by
  have h : handle_submission cfg remote input choice temp =
      (Display.warning WARNING_MSG, []) := by
    unfold handle_submission
    rw [if_pos hblank]
  exact ⟨h, by simp [h, remoteRequests]⟩

/-- C7 (witness): concrete all-whitespace submission. -/
theorem c7_blank_input_warns_witness :
    handle_submission ⟨some "sk", none⟩ okRemote " \t\n" "A" 1 =
      (Display.warning WARNING_MSG, []) ∧
    remoteRequests (handle_submission ⟨some "sk", none⟩ okRemote " \t\n" "A" 1).2 = [] :=
  c7_blank_input_warns ⟨some "sk", none⟩ okRemote " \t\n" "A" 1 (by decide)

/-! ### C8: temperature pass-through on [0,1] -/

/-- C8: for every temperature in `[0,1]`, with a recognized persona and a
resolvable credential, `ask_expert` raises no validation error: its entire
outcome is the interpretation of the remote call, whose request carries the
temperature unchanged. The boundary values are covered by the witness. -/
theorem c8_temperature_passthrough (cfg : Config)
    (remote : Request → RemoteOutcome) (input choice : String) (temp : ℚ)
    (p k : String) (h0 : 0 ≤ temp) (h1 : temp ≤ 1)
    (hp : SYSTEM_PROMPTS choice = some p)
    (hk : (get_api_key cfg).1 = some k) (hne : k ≠ "") :
    ask_expert cfg remote input choice temp =
      (interpretOutcome
        (remote ⟨k, "gpt-4o-mini", temp, [⟨Role.system, p⟩, ⟨Role.user, input⟩]⟩),
       (get_api_key cfg).2 ++
        [Event.remoteCall ⟨k, "gpt-4o-mini", temp,
          [⟨Role.system, p⟩, ⟨Role.user, input⟩]⟩]) :=
  ask_expert_run cfg remote input choice temp p k hp hk hne

/-- C8 (witness): both boundary temperatures `0` and `1` are accepted and
forwarded unchanged. -/
theorem c8_temperature_passthrough_witness :
    (0:ℚ) ≤ 0 ∧ (0:ℚ) ≤ 1 ∧ (1:ℚ) ≤ 1 ∧
    ask_expert ⟨some "sk", none⟩ okRemote "hi" "A" 0 =
      (interpretOutcome
        (okRemote ⟨"sk", "gpt-4o-mini", 0, [⟨Role.system, PROMPT_A⟩, ⟨Role.user, "hi"⟩]⟩),
       (get_api_key ⟨some "sk", none⟩).2 ++
        [Event.remoteCall ⟨"sk", "gpt-4o-mini", 0,
          [⟨Role.system, PROMPT_A⟩, ⟨Role.user, "hi"⟩]⟩]) ∧
    ask_expert ⟨some "sk", none⟩ okRemote "hi" "A" 1 =
      (interpretOutcome
        (okRemote ⟨"sk", "gpt-4o-mini", 1, [⟨Role.system, PROMPT_A⟩, ⟨Role.user, "hi"⟩]⟩),
       (get_api_key ⟨some "sk", none⟩).2 ++
        [Event.remoteCall ⟨"sk", "gpt-4o-mini", 1,
          [⟨Role.system, PROMPT_A⟩, ⟨Role.user, "hi"⟩]⟩]) :=
  ⟨le_refl 0, by norm_num, le_refl 1,
   c8_temperature_passthrough ⟨some "sk", none⟩ okRemote "hi" "A" 0 PROMPT_A "sk"
     (le_refl 0) (by norm_num) (by decide) (by decide) (by decide),
   c8_temperature_passthrough ⟨some "sk", none⟩ okRemote "hi" "A" 1 PROMPT_A "sk"
     (by norm_num) (le_refl 1) (by decide) (by decide) (by decide)⟩

/-! ### C9: no range validation on temperature -/

/-- C9: `ask_expert` never inspects the temperature: for every rational
value, including values outside `[0,1]`, with a valid persona and a
resolvable credential the outcome is entirely the remote call's, and the
request carries the value unchanged as the sampling parameter. -/
theorem c9_no_temperature_validation (cfg : Config)
    (remote : Request → RemoteOutcome) (input choice : String) (temp : ℚ)
    (p k : String)
    (hp : SYSTEM_PROMPTS choice = some p)
    (hk : (get_api_key cfg).1 = some k) (hne : k ≠ "") :
    ask_expert cfg remote input choice temp =
      (interpretOutcome
        (remote ⟨k, "gpt-4o-mini", temp, [⟨Role.system, p⟩, ⟨Role.user, input⟩]⟩),
       (get_api_key cfg).2 ++
        [Event.remoteCall ⟨k, "gpt-4o-mini", temp,
          [⟨Role.system, p⟩, ⟨Role.user, input⟩]⟩]) :=
  ask_expert_run cfg remote input choice temp p k hp hk hne

/-- C9 (witness): the out-of-range temperatures `2` and `-3` are forwarded
unchanged with no validation failure. -/
theorem c9_no_temperature_validation_witness :
    ask_expert ⟨some "sk", none⟩ okRemote "hi" "A" 2 =
      (interpretOutcome
        (okRemote ⟨"sk", "gpt-4o-mini", 2, [⟨Role.system, PROMPT_A⟩, ⟨Role.user, "hi"⟩]⟩),
       (get_api_key ⟨some "sk", none⟩).2 ++
        [Event.remoteCall ⟨"sk", "gpt-4o-mini", 2,
          [⟨Role.system, PROMPT_A⟩, ⟨Role.user, "hi"⟩]⟩]) ∧
    ask_expert ⟨some "sk", none⟩ okRemote "hi" "A" (-3) =
      (interpretOutcome
        (okRemote ⟨"sk", "gpt-4o-mini", -3, [⟨Role.system, PROMPT_A⟩, ⟨Role.user, "hi"⟩]⟩),
       (get_api_key ⟨some "sk", none⟩).2 ++
        [Event.remoteCall ⟨"sk", "gpt-4o-mini", -3,
          [⟨Role.system, PROMPT_A⟩, ⟨Role.user, "hi"⟩]⟩]) :=
  ⟨c9_no_temperature_validation ⟨some "sk", none⟩ okRemote "hi" "A" 2 PROMPT_A "sk"
     (by decide) (by decide) (by decide),
   c9_no_temperature_validation ⟨some "sk", none⟩ okRemote "hi" "A" (-3) PROMPT_A "sk"
     (by decide) (by decide) (by decide)⟩

/-! ### C10: no blank-input guard inside the invoker -/

/-- C10: the whitespace guard lives only in the UI layer: calling
`ask_expert` directly with text that strips to empty, a valid persona and a
resolvable credential still issues exactly one remote call, with that text
verbatim as the user-role message. -/
theorem c10_invoker_sends_blank_text (cfg : Config)
    (remote : Request → RemoteOutcome) (input choice : String) (temp : ℚ)
    (p k : String) (hblank : pyStrip input = "")
    (hp : SYSTEM_PROMPTS choice = some p)
    (hk : (get_api_key cfg).1 = some k) (hne : k ≠ "") :
    remoteRequests (ask_expert cfg remote input choice temp).2 =
      [⟨k, "gpt-4o-mini", temp, [⟨Role.system, p⟩, ⟨Role.user, input⟩]⟩] := by
  rw [ask_expert_run cfg remote input choice temp p k hp hk hne]
  rw [remoteRequests_append, remoteRequests_get_api_key]
  rfl

/-- C10 (witness): a single-space input still produces exactly one remote
call carrying the space verbatim as the user message. -/
theorem c10_invoker_sends_blank_text_witness :
    remoteRequests (ask_expert ⟨some "sk", none⟩ okRemote " " "A" 1).2 =
      [⟨"sk", "gpt-4o-mini", 1, [⟨Role.system, PROMPT_A⟩, ⟨Role.user, " "⟩]⟩] :=
  c10_invoker_sends_blank_text ⟨some "sk", none⟩ okRemote " " "A" 1 PROMPT_A "sk"
    (by decide) (by decide) (by decide) (by decide)

/-! ### C1: UI boundary error rendering -/

/-- C1 (counterexample): the handler dispatches on the exception class
`RuntimeError`, not on the failure's origin: a `RuntimeError` propagated
from the remote call is rendered through the remediation path — the claim's
generic rendering, which would show the error's class name and message, is
not produced. -/
theorem c1_remote_runtime_error_counterexample :
    (handle_submission ⟨some "sk", none⟩ runtimeRaisingRemote "hello" "A" 1).1 =
      Display.errorRemediation "boom" INFO_MSG ∧
    (handle_submission ⟨some "sk", none⟩ runtimeRaisingRemote "hello" "A" 1).1 ≠
      Display.errorGeneric (genericErrorText ⟨"RuntimeError", "boom", true⟩) := by
  constructor
  · rfl
  · intro h
    exact absurd h (by decide)

set_option maxRecDepth 8192 in
/-- C1 (amended): every failure raised during a non-blank submission is
caught and rendered as a user-visible display (the handler is a total
function — no failure escapes): a failure whose class is `RuntimeError` —
which includes the MissingConfiguration failure, whose message and the
accompanying info panel both name the two configuration sources, but also
any `RuntimeError` propagated from the remote call — is rendered through
the remediation path, and every other failure is rendered generically with
the underlying error's class name and message text. -/
theorem c1_failures_rendered (cfg : Config) (remote : Request → RemoteOutcome)
    (input choice : String) (temp : ℚ) (e : PyExc) (evs : List Event)
    (hne : ¬ pyStrip input = "")
    (hrun : ask_expert cfg remote input choice temp = (Except.error e, evs)) :
    (handle_submission cfg remote input choice temp).1 =
      (if e.is_runtime_error then Display.errorRemediation e.msg INFO_MSG
       else Display.errorGeneric (genericErrorText e)) ∧
    List.IsInfix ".env".toList INFO_MSG.toList ∧
    List.IsInfix "Secrets".toList INFO_MSG.toList ∧
    List.IsInfix ".env".toList MISSING_KEY_MSG.toList ∧
    List.IsInfix "Secrets".toList MISSING_KEY_MSG.toList := by
  refine ⟨?_, by decide, by decide, by decide, by decide⟩
  unfold handle_submission
  rw [if_neg hne, hrun]
  cases h : e.is_runtime_error <;> simp [h]

/-- C1 (witness): a submission with no resolvable credential is rendered
through the remediation path, with the MissingConfiguration message in the
error panel and the info panel alongside. -/
theorem c1_failures_rendered_witness :
    (handle_submission ⟨none, none⟩ okRemote "hello" "A" 1).1 =
      (if (true : Bool) then Display.errorRemediation MISSING_KEY_MSG INFO_MSG
       else Display.errorGeneric
         (genericErrorText ⟨"RuntimeError", MISSING_KEY_MSG, true⟩)) ∧
    List.IsInfix ".env".toList INFO_MSG.toList ∧
    List.IsInfix "Secrets".toList INFO_MSG.toList ∧
    List.IsInfix ".env".toList MISSING_KEY_MSG.toList ∧
    List.IsInfix "Secrets".toList MISSING_KEY_MSG.toList :=
  c1_failures_rendered ⟨none, none⟩ okRemote "hello" "A" 1
    ⟨"RuntimeError", MISSING_KEY_MSG, true⟩
    [Event.secretsGet "OPENAI_API_KEY", Event.envGet "OPENAI_API_KEY"]
    (by decide) rfl
